import Mathlib

/-!
Shallow embedding of the python-cmr query builder
(src/pycmr/queries.py and src/pycmr/granule.py).

Modelling conventions:
* Python dicts (`self.params`, `self.options`) are association lists that
  preserve insertion order; assigning to an existing key updates it in place,
  assigning a fresh key appends it at the end (CPython dict semantics).
* Parameter values are modelled by `PVal` (string / bool / int / list of
  strings), which covers every value the source ever stores.
* A setter that can `raise` is a function `QState → args → SetRes`: on a raise
  the result is `.error (err, q')` where `q'` is the state of the builder at
  the moment the exception leaves the method, so atomicity is a real theorem,
  not a triviality of the encoding.
* Python `return` with no value returns `None`; `return self` returns the
  builder.  The success value `QState × Ret` records which of the two happened.
* Numeric inputs (coordinates, cloud-cover bounds) are modelled as `Int`;
  `float(i)` always succeeds on them and `str(float(i))` is `"{i}.0"`.
  Python truthiness of an optional int (`not x`) is `x` being `None` or `0`.
* `urllib.parse.quote` is modelled character-wise for ASCII strings
  (identical to byte-wise quoting on ASCII): alphanumerics and `_.-~/`
  pass through, everything else becomes `%XX` with uppercase hex.
* `datetime.strptime(s, "%Y-%m-%dT%H:%M:%SZ")` is modelled as an exact match
  of the zero-padded pattern `DDDD-DD-DDTDD:DD:DDZ` (digit-count-lenient or
  out-of-range inputs accepted/rejected by the real strptime are outside the
  modelled input domain; every claim is settled on canonical strings).
-/

namespace PyCMR

/-- A scalar or list value stored in the `params` dict. -/
inductive PVal where
  | str (s : String)
  | bool (b : Bool)
  | int (n : Int)
  | list (vs : List String)
  deriving DecidableEq, Repr

/-- Ordered association list lookup (Python `d[k]` / `k in d`). -/
def lookupKey {α : Type} : List (String × α) → String → Option α
  | [], _ => none
  | (k, v) :: t, key => if k = key then some v else lookupKey t key

/-- Python `d[k] = v`: update in place if present, else append at the end. -/
def setKey {α : Type} : List (String × α) → String → α → List (String × α)
  | [], key, v => [(key, v)]
  | (k, w) :: t, key, v =>
      if k = key then (key, v) :: t else (k, w) :: setKey t key v

/-- Python `k in d`. -/
def hasKey {α : Type} (m : List (String × α)) (k : String) : Bool :=
  (lookupKey m k).isSome

/-- The builder's mutable state: the `params` and `options` dicts. -/
structure QState where
  params : List (String × PVal)
  options : List (String × List (String × Bool))
  deriving DecidableEq, Repr

/-- A freshly constructed builder: both dicts empty. -/
def emptyQ : QState := ⟨[], []⟩

/-- The Python exception kinds raised by the modelled code. -/
inductive PyErr where
  | valueError
  | typeError
  | attributeError
  | runtimeError
  deriving DecidableEq, Repr

/-- What a setter returns on success: `self` (the builder) or `None`. -/
inductive Ret where
  | builder
  | pynone
  deriving DecidableEq, Repr

/-- Result of a setter call: either a raise carrying the state at raise time,
or the state after the call together with the returned value. -/
abbrev SetRes : Type := Except (PyErr × QState) (QState × Ret)

instance {ε α : Type} [DecidableEq ε] [DecidableEq α] : DecidableEq (Except ε α) :=
  fun a b =>
    match a, b with
    | .error x, .error y =>
        if h : x = y then isTrue (by rw [h]) else isFalse (by simp [h])
    | .error _, .ok _ => isFalse (by simp)
    | .ok _, .error _ => isFalse (by simp)
    | .ok x, .ok y =>
        if h : x = y then isTrue (by rw [h]) else isFalse (by simp [h])

/-- Uppercase hex digit (for percent-encoding). -/
def hexDigit (n : Nat) : Char :=
  if n < 10 then Char.ofNat (48 + n) else Char.ofNat (55 + n)

/-- Characters `urllib.parse.quote` leaves unencoded (default `safe='/'`). -/
def quoteSafe (c : Char) : Bool :=
  c.isAlpha || c.isDigit || c = '_' || c = '.' || c = '-' || c = '~' || c = '/'

/-- `urllib.parse.quote` on one ASCII character. -/
def quoteChar (c : Char) : String :=
  if quoteSafe c then String.singleton c
  else
    String.mk ['%', hexDigit (c.toNat / 16 % 16), hexDigit (c.toNat % 16)]

/-- `urllib.parse.quote` (ASCII inputs). -/
def pyQuote (s : String) : String :=
  String.join (s.toList.map quoteChar)

/-- Python `str(float(i))` for an integer input `i`. -/
def pyFloatStr (i : Int) : String := toString i ++ ".0"

/-- Python `str` of a scalar `PVal`, as used by `"{}".format(val)`. -/
def pyStr : PVal → String
  | .str s => s
  | .bool b => if b then "True" else "False"
  | .int n => toString n
  | .list _ => ""

/-- A `datetime.datetime` value (the fields `strftime` reads). -/
structure DateTime where
  year : Nat
  month : Nat
  day : Nat
  hour : Nat
  minute : Nat
  second : Nat
  deriving DecidableEq, Repr

/-- Zero-pad a numeral to `w` digits, as `strftime` does. -/
def pad (w : Nat) (n : Nat) : String :=
  let s := toString n
  String.mk (List.replicate (w - s.length) '0') ++ s

/-- `d.strftime("%Y-%m-%dT%H:%M:%SZ")`. -/
def strftimeIso (d : DateTime) : String :=
  pad 4 d.year ++ "-" ++ pad 2 d.month ++ "-" ++ pad 2 d.day ++ "T" ++
    pad 2 d.hour ++ ":" ++ pad 2 d.minute ++ ":" ++ pad 2 d.second ++ "Z"

/-- Whether `datetime.strptime(s, "%Y-%m-%dT%H:%M:%SZ")` succeeds
(modelled on the zero-padded canonical pattern). -/
def isIso8601 (s : String) : Bool :=
  match s.toList with
  | [y1, y2, y3, y4, '-', m1, m2, '-', d1, d2, 'T',
     h1, h2, ':', n1, n2, ':', s1, s2, 'Z'] =>
      [y1, y2, y3, y4, m1, m2, d1, d2, h1, h2, n1, n2, s1, s2].all Char.isDigit
  | _ => false

/-- An argument passed to `temporal` as `date_from` / `date_to`:
`None`, a datetime object, a string, or anything else (e.g. an int). -/
inductive DateInput where
  | none
  | dt (d : DateTime)
  | str (s : String)
  | other
  deriving DecidableEq, Repr

/-- The inner `convert_to_string` helper of `temporal`.  `.error ()` is the
`ValueError` that leaves the helper: for `.str`, `strptime` fails (its
`ValueError` is not caught by the `except TypeError` clause and propagates);
for `.other`, `strftime` raises `AttributeError` (caught), then `strptime`
raises `TypeError` (caught) and a `ValueError` is raised. -/
def convertToString : DateInput → Except Unit String
  | .none => .ok ""
  | .dt d => .ok (strftimeIso d)
  | .str s =>
      if s = "" then .ok ""
      else if isIso8601 s then .ok s else .error ()
  | .other => .error ()

/-- The current `params["temporal"]` list (empty when unset). -/
def temporalList (q : QState) : List String :=
  match lookupKey q.params "temporal" with
  | some (.list l) => l
  | _ => []

/-- Lexicographic comparison of code-point lists (Python string `<`). -/
def charListLt : List Char → List Char → Bool
  | [], [] => false
  | [], _ :: _ => true
  | _ :: _, [] => false
  | a :: as, b :: bs =>
      if a.toNat < b.toNat then true
      else if b.toNat < a.toNat then false
      else charListLt as bs

/-- Python string comparison `a > b` (lexicographic on code points). -/
def strGT (a b : String) : Bool := charListLt b.toList a.toList

/-- `Query.temporal` (queries.py lines 45-99; granule.py lines 65-121 is
textually identical).  Raise sites: conversion failures and the range check,
all of which precede every write. -/
def temporal (q : QState) (dateFrom dateTo : DateInput) (excludeBoundary : Bool) :
    SetRes :=
  match convertToString dateFrom with
  | .error _ => .error (.valueError, q)
  | .ok sf =>
    match convertToString dateTo with
    | .error _ => .error (.valueError, q)
    | .ok st =>
      if sf ≠ "" && st ≠ "" && strGT sf st then
        .error (.valueError, q)
      else
        let q1 : QState :=
          { q with params := setKey q.params "temporal"
                     (.list (temporalList q ++ [sf ++ "," ++ st])) }
        let q2 : QState :=
          if excludeBoundary then
            { q1 with options := setKey q1.options "temporal"
                        [("exclude_boundary", true)] }
          else q1
        .ok (q2, .builder)

/-- `Query.short_name` (queries.py lines 101-110; identical in granule.py).
`if not short_name: return` returns `None`, not the builder. -/
def shortName (q : QState) (sn : Option String) : SetRes :=
  match sn with
  | Option.none => .ok (q, .pynone)
  | some s =>
      if s = "" then .ok (q, .pynone)
      else .ok ({ q with params := setKey q.params "short_name" (.str s) }, .builder)

/-- `Query.version` (queries.py lines 112-121; identical in granule.py). -/
def version (q : QState) (v : Option String) : SetRes :=
  match v with
  | Option.none => .ok (q, .pynone)
  | some s =>
      if s = "" then .ok (q, .pynone)
      else .ok ({ q with params := setKey q.params "version" (.str s) }, .builder)

/-- `Query.point` (queries.py lines 123-141): two coordinates, falsy (None
or zero) short-circuits to `return self`; otherwise stores
`"{},{}".format(float(lon), float(lat))` with no percent-encoding. -/
def point (q : QState) (lon lat : Option Int) : SetRes :=
  match lon, lat with
  | some lo, some la =>
      if la = 0 || lo = 0 then .ok (q, .builder)
      else
        let p := setKey q.params "point" (.str (pyFloatStr lo ++ "," ++ pyFloatStr la))
        .ok ({ q with params := p }, .builder)
  | _, _ => .ok (q, .builder)

/-- `Query.polygon` (queries.py lines 143-173).  The closedness check
compares `as_floats[0]`/`as_floats[1]` with `as_floats[-2]`/`as_floats[-1]`,
i.e. the first pair with the last pair, after float coercion. -/
def polygon (q : QState) (coordinates : List (Int × Int)) : SetRes :=
  if coordinates = [] then .ok (q, .builder)
  else if coordinates.length < 4 then .error (.valueError, q)
  else
    let first := coordinates.head!
    let last := coordinates.getLast!
    if first.1 ≠ last.1 || first.2 ≠ last.2 then .error (.valueError, q)
    else
      let asStrs := coordinates.flatMap (fun c => [pyFloatStr c.1, pyFloatStr c.2])
      let p := setKey q.params "polygon" (.str (String.intercalate "," asStrs))
      .ok ({ q with params := p }, .builder)

/-- `Query.bounding_box` (queries.py lines 175-194): no validation beyond
float coercion. -/
def boundingBox (q : QState) (llLon llLat urLon urLat : Int) : SetRes :=
  let p := setKey q.params "bounding_box"
    (.str (pyFloatStr llLon ++ "," ++ pyFloatStr llLat ++ "," ++
           pyFloatStr urLon ++ "," ++ pyFloatStr urLat))
  .ok ({ q with params := p }, .builder)

/-- `Query.line` (queries.py lines 196-222). -/
def line (q : QState) (coordinates : List (Int × Int)) : SetRes :=
  if coordinates = [] then .ok (q, .builder)
  else if coordinates.length < 2 then .error (.valueError, q)
  else
    let asStrs := coordinates.flatMap (fun c => [pyFloatStr c.1, pyFloatStr c.2])
    let p := setKey q.params "line" (.str (String.intercalate "," asStrs))
    .ok ({ q with params := p }, .builder)

/-- An argument that may or may not be a Python `bool`. -/
inductive BoolIn where
  | b (v : Bool)
  | notBool
  deriving DecidableEq, Repr

/-- An argument that may or may not be a Python `str`. -/
inductive StrIn where
  | s (v : String)
  | notStr
  deriving DecidableEq, Repr

/-- `Query.online_only` (queries.py lines 31-43). -/
def onlineOnly (q : QState) (v : BoolIn) : SetRes :=
  match v with
  | .notBool => .error (.typeError, q)
  | .b b => .ok ({ q with params := setKey q.params "online_only" (.bool b) }, .builder)

/-- `Query.downloadable` (queries.py lines 224-235). -/
def downloadable (q : QState) (v : BoolIn) : SetRes :=
  match v with
  | .notBool => .error (.typeError, q)
  | .b b => .ok ({ q with params := setKey q.params "downloadable" (.bool b) }, .builder)

/-- `Query.entry_title` (queries.py lines 237-246): the argument is passed
straight to `quote`; `quote(None)` raises `TypeError`, the empty string is
quoted to `""` and stored — there is no empty-input no-op here. -/
def entryTitle (q : QState) (et : Option String) : SetRes :=
  match et with
  | Option.none => .error (.typeError, q)
  | some s =>
      let p := setKey q.params "entry_title" (.str (pyQuote s))
      .ok ({ q with params := p }, .builder)

/-- `GranuleQuery.orbit_number` (queries.py lines 320-332).  `if orbit2:` is
Python truthiness, so `None` and `0` both take the single-orbit branch. -/
def orbitNumber (q : QState) (orbit1 : Int) (orbit2 : Option Int) : SetRes :=
  match orbit2 with
  | some o2 =>
      if o2 = 0 then
        .ok ({ q with params := setKey q.params "orbit_number" (.int orbit1) }, .builder)
      else
        let p := setKey q.params "orbit_number"
          (.str (pyQuote (toString orbit1 ++ "," ++ toString o2)))
        .ok ({ q with params := p }, .builder)
  | Option.none =>
      .ok ({ q with params := setKey q.params "orbit_number" (.int orbit1) }, .builder)

/-- `GranuleQuery.day_night_flag` (queries.py lines 334-348). -/
def dayNightFlag (q : QState) (v : StrIn) : SetRes :=
  match v with
  | .notStr => .error (.typeError, q)
  | .s s =>
      let lowered := s.toLower
      if lowered = "day" || lowered = "night" || lowered = "unspecified" then
        .ok ({ q with params := setKey q.params "day_night_flag" (.str lowered) }, .builder)
      else .error (.valueError, q)

/-- `GranuleQuery.cloud_cover` (queries.py lines 350-369).  `not min_cover`
is Python truthiness, so a bound equal to `0` is "absent": with either bound
zero the `min > max` check is skipped.  The inner `raise ValueError` is
caught by `except ValueError` and re-raised (still a `ValueError`). -/
def cloudCover (q : QState) (minCover maxCover : Int) : SetRes :=
  if minCover = 0 && maxCover = 0 then .error (.valueError, q)
  else if minCover ≠ 0 && maxCover ≠ 0 && minCover > maxCover then
    .error (.valueError, q)
  else
    let p := setKey q.params "cloud_cover"
      (.str (toString minCover ++ "," ++ toString maxCover))
    .ok ({ q with params := p }, .builder)

/-- `GranuleQuery.instrument` (queries.py lines 371-380). -/
def instrument (q : QState) (v : String) : SetRes :=
  if v = "" then .error (.valueError, q)
  else .ok ({ q with params := setKey q.params "instrument" (.str v) }, .builder)

/-- `GranuleQuery.platform` (queries.py lines 382-391). -/
def platform (q : QState) (v : String) : SetRes :=
  if v = "" then .error (.valueError, q)
  else .ok ({ q with params := setKey q.params "platform" (.str v) }, .builder)

/-- `GranuleQuery.granule_ur` (queries.py lines 393-402). -/
def granuleUr (q : QState) (v : String) : SetRes :=
  if v = "" then .error (.valueError, q)
  else .ok ({ q with params := setKey q.params "granule_ur" (.str v) }, .builder)

/-- granule.py `GranuleQuery.point` (lines 50-63).  After the falsy check and
the whitespace strip, line 60 evaluates `self.urlEncodeString` — but the class
only defines `_urlEncodeString` (line 22), so attribute lookup raises
`AttributeError` before anything is written. -/
def granulePoint (q : QState) (pt : Option String) : SetRes :=
  match pt with
  | Option.none => .ok (q, .pynone)
  | some s =>
      if s = "" then .ok (q, .pynone)
      else .error (.attributeError, q)

/-- The `formatted_params` loop of `Query.query` (queries.py lines 259-267;
granule.py lines 129-137 identical): `key[]=v` per element for list values,
`key=value` for scalars, in dict iteration (insertion) order. -/
def serParams : List (String × PVal) → List String
  | [] => []
  | (k, .list vs) :: t => vs.map (fun v => k ++ "[]=" ++ v) ++ serParams t
  | (k, v) :: t => (k ++ "=" ++ pyStr v) :: serParams t

/-- The `formatted_options` loop of `Query.query` (queries.py lines 272-287).
Option values are booleans by construction (the `isinstance(val, bool)`
re-check never fires on states this module can build), and `"{}".format(val)`
renders them as Python does: `True` / `False`. -/
def serOpts : List (String × List (String × Bool)) → List String
  | [] => []
  | (pk, om) :: t =>
      om.map (fun ov => "options[" ++ pk ++ "][" ++ ov.1 ++ "]=" ++ pyStr (.bool ov.2))
        ++ serOpts t

/-- `url = "{}?{}&{}".format(base_url, params_as_string, options_as_string)`. -/
def mkUrl (baseUrl : String) (q : QState) : String :=
  baseUrl ++ "?" ++ String.intercalate "&" (serParams q.params) ++ "&" ++
    String.intercalate "&" (serOpts q.options)

/-- `GranuleQuery._valid_state` (queries.py lines 404-415): any spatial key
present requires some collection key present. -/
def granuleValidState (q : QState) : Bool :=
  if ["point", "polygon", "bounding_box", "line"].any (hasKey q.params) then
    if !(["short_name", "entry_title"].any (hasKey q.params)) then false
    else true
  else true

/-- `CollectionsQuery._valid_state` (queries.py lines 436-437). -/
def collectionsValidState (_ : QState) : Bool := true

/-- Result of `Query.query` up to the network call: either the pre-flight
`RuntimeError` (with the state at raise time) or the URL handed to `get`,
together with the state after serialization. -/
abbrev QueryRes : Type := Except (PyErr × QState) (String × QState)

instance : DecidableEq QueryRes := by infer_instance

/-- `Query.query` (queries.py lines 248-292, up to the `get(url)` call): the
`_valid_state` check runs first and raises `RuntimeError` before the URL is
even built; serialization only reads `params` / `options`. -/
def queryFn (validState : QState → Bool) (baseUrl : String) (q : QState) : QueryRes :=
  if !validState q then .error (.runtimeError, q)
  else .ok (mkUrl baseUrl q, q)

/-- `GranuleQuery` (queries.py) `.query()` up to the network call. -/
def granuleQueryRun (q : QState) : QueryRes :=
  queryFn granuleValidState "https://cmr.earthdata.nasa.gov/search/granules.json" q

/-- `CollectionsQuery.query()` up to the network call. -/
def collectionsQueryRun (q : QState) : QueryRes :=
  queryFn collectionsValidState "https://cmr.earthdata.nasa.gov/search/collections.json" q

/-- granule.py `GranuleQuery.execute` (lines 123-164) up to the `get(url)`
call: no `_valid_state` pre-flight exists there, so it always reaches the URL. -/
def granuleExecuteRun (q : QState) : String × QState :=
  (mkUrl "https://cmr.earthdata.nasa.gov/search/granules.json" q, q)

/-- One call to any modelled setter, for quantifying over call sequences. -/
inductive SetterCall where
  | onlineOnlyC (v : BoolIn)
  | temporalC (dateFrom dateTo : DateInput) (excludeBoundary : Bool)
  | shortNameC (sn : Option String)
  | versionC (v : Option String)
  | pointC (lon lat : Option Int)
  | polygonC (coordinates : List (Int × Int))
  | boundingBoxC (llLon llLat urLon urLat : Int)
  | lineC (coordinates : List (Int × Int))
  | downloadableC (v : BoolIn)
  | entryTitleC (et : Option String)
  | orbitNumberC (orbit1 : Int) (orbit2 : Option Int)
  | dayNightFlagC (v : StrIn)
  | cloudCoverC (minCover maxCover : Int)
  | instrumentC (v : String)
  | platformC (v : String)
  | granuleUrC (v : String)
  | granulePointC (pt : Option String)
  deriving DecidableEq, Repr

/-- Dispatch one setter call on a builder state. -/
def applyCall (q : QState) : SetterCall → SetRes
  | .onlineOnlyC v => onlineOnly q v
  | .temporalC f t e => temporal q f t e
  | .shortNameC sn => shortName q sn
  | .versionC v => version q v
  | .pointC lon lat => point q lon lat
  | .polygonC cs => polygon q cs
  | .boundingBoxC a b c d => boundingBox q a b c d
  | .lineC cs => line q cs
  | .downloadableC v => downloadable q v
  | .entryTitleC et => entryTitle q et
  | .orbitNumberC o1 o2 => orbitNumber q o1 o2
  | .dayNightFlagC v => dayNightFlag q v
  | .cloudCoverC mn mx => cloudCover q mn mx
  | .instrumentC v => instrument q v
  | .platformC v => platform q v
  | .granuleUrC v => granuleUr q v
  | .granulePointC pt => granulePoint q pt

/-- The state after a setter call, whether or not it raised (a raise leaves
the builder in the state it had at raise time, which the caller still holds). -/
def stateAfter (q : QState) (c : SetterCall) : QState :=
  match applyCall q c with
  | .ok (q', _) => q'
  | .error (_, q') => q'

/-- Run a sequence of setter calls left to right. -/
def applyCalls (q : QState) : List SetterCall → QState
  | [] => q
  | c :: cs => applyCalls (stateAfter q c) cs

/-- The recorded `options["temporal"]["exclude_boundary"]` flag, if any. -/
def exclBoundaryOpt (q : QState) : Option Bool :=
  (lookupKey q.options "temporal").bind (fun m => lookupKey m "exclude_boundary")

/-- Whether a `temporal(f, t, _)` call succeeds (conversion of both sides and
the range check). -/
def temporalOk (f t : DateInput) : Bool :=
  match convertToString f, convertToString t with
  | .ok sf, .ok st => !(sf ≠ "" && st ≠ "" && strGT sf st)
  | _, _ => false

/-- The canonical string a temporal side converts to (junk for inputs on
which conversion raises). -/
def canon (d : DateInput) : String :=
  ((convertToString d).toOption).getD ""

theorem lookupKey_setKey_self {α : Type} (m : List (String × α)) (k : String) (v : α) :
    lookupKey (setKey m k v) k = some v := by
  induction m with
  | nil => simp [setKey, lookupKey]
  | cons h t ih =>
      obtain ⟨k', w⟩ := h
      by_cases hk : k' = k <;> simp [setKey, lookupKey, hk, ih]

/-- A successful temporal call: returns the builder, appends exactly one
range string, and touches the options exactly when `exclude_boundary` is
set. -/
theorem temporal_ok_step (q : QState) (f t : DateInput) (e : Bool)
    (h : temporalOk f t = true) :
    ∃ q', temporal q f t e = .ok (q', .builder) ∧
      temporalList q' = temporalList q ++ [canon f ++ "," ++ canon t] ∧
      exclBoundaryOpt q' = (if e then some true else exclBoundaryOpt q) := by
  unfold temporalOk at h
  unfold temporal
  cases hf : convertToString f with
  | error u => rw [hf] at h; simp at h
  | ok sf =>
    cases ht : convertToString t with
    | error u => rw [hf, ht] at h; simp at h
    | ok st =>
      rw [hf, ht] at h
      simp only [Bool.not_eq_true'] at h
      refine ⟨(if e then
          { params := setKey q.params "temporal" (.list (temporalList q ++ [sf ++ "," ++ st])),
            options := setKey q.options "temporal" [("exclude_boundary", true)] }
        else
          { q with params :=
              setKey q.params "temporal" (.list (temporalList q ++ [sf ++ "," ++ st])) }),
        ?_, ?_, ?_⟩
      · simp only [h, if_false, Bool.false_eq_true]
      · cases e <;>
          simp [temporalList, lookupKey_setKey_self, canon, hf, ht, Except.toOption]
      · cases e <;>
          simp [exclBoundaryOpt, lookupKey_setKey_self, lookupKey]

/-- C1 counterexample input: `entry_title("")` on a fresh builder *writes*
`params["entry_title"] = ""` — the empty input is not a no-op. -/
theorem c1_empty_input_counterexample :
    entryTitle emptyQ (some "") =
      .ok (⟨[("entry_title", .str "")], []⟩, .builder) ∧
    (⟨[("entry_title", .str "")], []⟩ : QState).params ≠ emptyQ.params := by
  constructor
  · rfl
  · decide

/-- C1 (amended): `short_name`, `version`, `point`, `polygon`, `line`
(queries.py) and granule.py's `point` treat falsy input as a no-op on the
state, but only `point`/`polygon`/`line` return the builder — `short_name`,
`version` and granule.py's `point` return `None`.  The other setters do not
no-op on empty input: `entry_title("")` stores `""`, `entry_title(None)`
raises `TypeError`, `temporal(None, None)` appends `","`, and
`instrument`/`platform`/`granule_ur` raise `ValueError` on `""`. -/
theorem c1_empty_input_amended (q : QState) (l : Option Int) :
    shortName q Option.none = .ok (q, .pynone) ∧
    shortName q (some "") = .ok (q, .pynone) ∧
    version q Option.none = .ok (q, .pynone) ∧
    version q (some "") = .ok (q, .pynone) ∧
    point q Option.none l = .ok (q, .builder) ∧
    point q l Option.none = .ok (q, .builder) ∧
    point q (some 0) l = .ok (q, .builder) ∧
    point q l (some 0) = .ok (q, .builder) ∧
    polygon q [] = .ok (q, .builder) ∧
    line q [] = .ok (q, .builder) ∧
    granulePoint q Option.none = .ok (q, .pynone) ∧
    granulePoint q (some "") = .ok (q, .pynone) ∧
    entryTitle q (some "") =
      .ok ({ q with params := setKey q.params "entry_title" (.str "") }, .builder) ∧
    entryTitle q Option.none = .error (.typeError, q) ∧
    instrument q "" = .error (.valueError, q) ∧
    platform q "" = .error (.valueError, q) ∧
    granuleUr q "" = .error (.valueError, q) ∧
    (∃ q', temporal q .none .none false = .ok (q', .builder) ∧
      temporalList q' = temporalList q ++ [","]) := by
  refine ⟨rfl, rfl, rfl, rfl, ?_, ?_, ?_, ?_, rfl, rfl, rfl, rfl, rfl, rfl, rfl, rfl, rfl, ?_⟩
  · cases l <;> rfl
  · cases l <;> simp [point]
  · cases l <;> simp [point]
  · cases l <;> simp [point]
  · have h := temporal_ok_step q .none .none false (by decide)
    obtain ⟨q', h1, h2, _⟩ := h
    exact ⟨q', h1, by simpa [canon, convertToString] using h2⟩

/-- C2: granule.py's `point` raises `AttributeError` on every non-empty
input — line 60 reads `self.urlEncodeString`, but the class only defines
`_urlEncodeString`, so the documented strip-and-percent-encode behaviour is
unreachable (the builder state is left untouched). -/
theorem c2_granule_point_attribute_error (q : QState) (s : String) (h : s ≠ "") :
    granulePoint q (some s) = .error (.attributeError, q) := by
  simp [granulePoint, h]

/-- C2 witness: the spec's own example input. -/
theorem c2_granule_point_attribute_error_witness :
    granulePoint emptyQ (some "44.6,-63.6") = .error (.attributeError, emptyQ) :=
  c2_granule_point_attribute_error emptyQ "44.6,-63.6" (by decide)

/-- C3 counterexample: two temporal calls, the first with
`exclude_boundary=True`, the second with `False`; the recorded option stays
`True`, so it does not equal the most recent call's argument. -/
theorem c3_last_write_wins_counterexample :
    exclBoundaryOpt (applyCalls emptyQ
      [.temporalC (.str "2016-10-10T01:02:03Z") (.str "2016-10-12T09:08:07Z") true,
       .temporalC (.str "2016-10-10T01:02:03Z") (.str "2016-10-12T09:08:07Z") false]) =
      some true ∧
    (some true : Option Bool) ≠ some false := by
  constructor
  · decide
  · decide

/-- C3 (amended): the exclude-boundary option is sticky, not last-write-wins:
after any sequence of successful temporal calls,
`options["temporal"]["exclude_boundary"]` is `True` as soon as *any* call in
the sequence passed `exclude_boundary=True`, and is untouched otherwise
(calls passing `False` never write or clear it). -/
theorem c3_exclude_boundary_sticky_amended (q : QState)
    (cs : List (DateInput × DateInput × Bool))
    (h : ∀ c ∈ cs, temporalOk c.1 c.2.1 = true) :
    exclBoundaryOpt (applyCalls q
        (cs.map (fun c => .temporalC c.1 c.2.1 c.2.2))) =
      (if cs.any (fun c => c.2.2) then some true else exclBoundaryOpt q) := by
  induction cs generalizing q with
  | nil => simp [applyCalls]
  | cons c rest ih =>
    obtain ⟨f, t, e⟩ := c
    have hc : temporalOk f t = true := h (f, t, e) (List.mem_cons_self _ _)
    have hrest : ∀ c' ∈ rest, temporalOk c'.1 c'.2.1 = true :=
      fun c' hc' => h c' (List.mem_cons_of_mem _ hc')
    obtain ⟨q', hq', -, hopt⟩ := temporal_ok_step q f t e hc
    have hstate : stateAfter q (SetterCall.temporalC f t e) = q' := by
      simp [stateAfter, applyCall, hq']
    simp only [List.map_cons, applyCalls, hstate, ih q' hrest, hopt, List.any_cons]
    cases e
    · rfl
    · simp

/-- C3 witness: a concrete sticky sequence (`True` then `False`). -/
theorem c3_exclude_boundary_sticky_witness :
    exclBoundaryOpt (applyCalls emptyQ
      ([((DateInput.str "2000-01-01T00:00:00Z"), (DateInput.str "2000-01-02T00:00:00Z"), true),
        ((DateInput.str "2000-01-03T00:00:00Z"), (DateInput.str "2000-01-04T00:00:00Z"), false)].map
          (fun c => .temporalC c.1 c.2.1 c.2.2))) = some true := by
  have h := c3_exclude_boundary_sticky_amended emptyQ
    [((DateInput.str "2000-01-01T00:00:00Z"), (DateInput.str "2000-01-02T00:00:00Z"), true),
     ((DateInput.str "2000-01-03T00:00:00Z"), (DateInput.str "2000-01-04T00:00:00Z"), false)]
    (by decide)
  simpa using h

/-- C4 counterexample: a `CollectionsQuery` holding a spatial parameter and
no collection-identifying parameter does *not* fail — `query()` reaches the
URL (its `_valid_state` is constantly true), contradicting "for every such
builder state". -/
theorem c4_collections_no_preflight_counterexample :
    hasKey (stateAfter emptyQ (.pointC (some 44) (some (-63)))).params "point" = true ∧
    hasKey (stateAfter emptyQ (.pointC (some 44) (some (-63)))).params "short_name" = false ∧
    hasKey (stateAfter emptyQ (.pointC (some 44) (some (-63)))).params "entry_title" = false ∧
    collectionsQueryRun (stateAfter emptyQ (.pointC (some 44) (some (-63)))) =
      .ok ("https://cmr.earthdata.nasa.gov/search/collections.json?point=44.0,-63.0&",
        stateAfter emptyQ (.pointC (some 44) (some (-63)))) := by
  refine ⟨?_, ?_, ?_, ?_⟩ <;> decide

/-- C4 (amended): for the queries.py `GranuleQuery`, `query()` with a spatial
parameter set and no collection-identifying parameter raises `RuntimeError`
in the `_valid_state` pre-flight, before the URL is built or any request
made; `CollectionsQuery.query()` and granule.py's `execute()` perform no such
check. -/
theorem c4_granule_preflight_amended (q : QState)
    (hs : ["point", "polygon", "bounding_box", "line"].any (hasKey q.params) = true)
    (hc : ["short_name", "entry_title"].any (hasKey q.params) = false) :
    granuleQueryRun q = .error (.runtimeError, q) := by
  simp [granuleQueryRun, queryFn, granuleValidState, hs, hc]

/-- C4 witness: a builder holding only a point parameter. -/
theorem c4_granule_preflight_witness :
    granuleQueryRun (stateAfter emptyQ (.pointC (some 44) (some (-63)))) =
      .error (.runtimeError, stateAfter emptyQ (.pointC (some 44) (some (-63)))) :=
  c4_granule_preflight_amended (stateAfter emptyQ (.pointC (some 44) (some (-63))))
    (by decide) (by decide)

/-- C7: over any sequence of N successful temporal calls the temporal
parameter accumulates exactly N range strings, in call order, each equal to
`"<canonical from>,<canonical to>"`. -/
theorem c7_temporal_accumulation (q : QState)
    (cs : List (DateInput × DateInput × Bool))
    (h : ∀ c ∈ cs, temporalOk c.1 c.2.1 = true) :
    temporalList (applyCalls q (cs.map (fun c => .temporalC c.1 c.2.1 c.2.2))) =
      temporalList q ++ cs.map (fun c => canon c.1 ++ "," ++ canon c.2.1) ∧
    (temporalList (applyCalls q (cs.map (fun c => .temporalC c.1 c.2.1 c.2.2)))).length =
      (temporalList q).length + cs.length := by
  have main : temporalList (applyCalls q (cs.map (fun c => .temporalC c.1 c.2.1 c.2.2))) =
      temporalList q ++ cs.map (fun c => canon c.1 ++ "," ++ canon c.2.1) := by
    induction cs generalizing q with
    | nil => simp [applyCalls]
    | cons c rest ih =>
      obtain ⟨f, t, e⟩ := c
      have hc : temporalOk f t = true := h (f, t, e) (List.mem_cons_self _ _)
      have hrest : ∀ c' ∈ rest, temporalOk c'.1 c'.2.1 = true :=
        fun c' hc' => h c' (List.mem_cons_of_mem _ hc')
      obtain ⟨q', hq', hlist, -⟩ := temporal_ok_step q f t e hc
      have hstate : stateAfter q (SetterCall.temporalC f t e) = q' := by
        simp [stateAfter, applyCall, hq']
      simp only [List.map_cons, applyCalls, hstate, ih q' hrest, hlist, List.map]
      simp
  exact ⟨main, by rw [main]; simp⟩

/-- C7 witness: two successful calls (a string pair and an open-ended
datetime range) append exactly their two canonical range strings. -/
theorem c7_temporal_accumulation_witness :
    temporalList (applyCalls emptyQ
      ([((DateInput.str "2000-01-01T00:00:00Z"), (DateInput.str "2000-01-02T00:00:00Z"), false),
        ((DateInput.dt ⟨2016, 10, 12, 9, 0, 0⟩), DateInput.none, false)].map
          (fun c => .temporalC c.1 c.2.1 c.2.2))) =
      ["2000-01-01T00:00:00Z,2000-01-02T00:00:00Z", "2016-10-12T09:00:00Z,"] := by
  have h := (c7_temporal_accumulation emptyQ
    [((DateInput.str "2000-01-01T00:00:00Z"), (DateInput.str "2000-01-02T00:00:00Z"), false),
     ((DateInput.dt ⟨2016, 10, 12, 9, 0, 0⟩), DateInput.none, false)] (by decide)).1
  rw [h]
  decide

/-- C5 counterexample: the serializer renders a recorded boolean option with
Python's `str(bool)`, i.e. capitalized `True`, not the lowercase token
`true` claimed by the spec. -/
theorem c5_option_capitalized_counterexample :
    serOpts [("temporal", [("exclude_boundary", true)])] =
      ["options[temporal][exclude_boundary]=True"] ∧
    "options[temporal][exclude_boundary]=True" ≠
      "options[temporal][exclude_boundary]=true" := by
  constructor
  · rfl
  · decide

/-- C5 (amended): serialization emits exactly one pair per recorded option —
the output has exactly as many entries as there are recorded options, and
for each recorded `(name, optionName) → b` the pair
`options[name][optionName]=<True|False>` (capitalized Python booleans) is
among them. -/
theorem c5_options_serialization_amended
    (opts : List (String × List (String × Bool))) :
    (serOpts opts).length = (opts.map (fun p => p.2.length)).sum ∧
    ∀ pk om okey b, (pk, om) ∈ opts → (okey, b) ∈ om →
      ("options[" ++ pk ++ "][" ++ okey ++ "]=" ++ (if b then "True" else "False")) ∈
        serOpts opts := by
  induction opts with
  | nil => exact ⟨rfl, by intro pk om okey b hmem _; cases hmem⟩
  | cons p t ih =>
    obtain ⟨pk', om'⟩ := p
    constructor
    · simp [serOpts, ih.1]
    · intro pk om okey b hmem hob
      have hshape : serOpts ((pk', om') :: t) =
          om'.map (fun ov =>
            "options[" ++ pk' ++ "][" ++ ov.1 ++ "]=" ++ pyStr (.bool ov.2)) ++
            serOpts t := rfl
      rw [hshape]
      rcases List.mem_cons.mp hmem with heq | htail
      · obtain ⟨h1, h2⟩ := Prod.mk.injEq .. ▸ heq
        subst h1; subst h2
        refine List.mem_append_left _ ?_
        refine List.mem_map.mpr ⟨(okey, b), hob, ?_⟩
        cases b <;> rfl
      · exact List.mem_append_right _ (ih.2 pk om okey b htail hob)

/-- C5 witness: one recorded option, its single emitted pair. -/
theorem c5_options_serialization_witness :
    ("options[" ++ "temporal" ++ "][" ++ "exclude_boundary" ++ "]=" ++
        (if true then "True" else "False")) ∈
      serOpts [("temporal", [("exclude_boundary", true)])] :=
  (c5_options_serialization_amended [("temporal", [("exclude_boundary", true)])]).2
    "temporal" [("exclude_boundary", true)] "exclude_boundary" true
    (by decide) (by decide)

/-- C6 counterexample: `cloud_cover(10, 0)` has its minimum exceeding its
maximum, yet raises nothing and stores `"10,0"` — `if min_cover and
max_cover:` treats the 0 bound as absent and skips the range check. -/
theorem c6_cloud_cover_zero_max_counterexample :
    (10 : Int) > 0 ∧
    cloudCover emptyQ 10 0 =
      .ok (⟨[("cloud_cover", .str "10,0")], []⟩, .builder) := by
  constructor
  · decide
  · rfl

/-- C6 (amended): `temporal` with both sides present and "from"
lexicographically later than "to" always raises `ValueError`;
`cloud_cover(min, max)` raises `ValueError` whenever `min > max` *and both
bounds are truthy (nonzero)* — with a zero bound the check is skipped — and
`cloud_cover(5, 10)` stores `"5,10"`. -/
theorem c6_range_validation_amended :
    (∀ (q : QState) (f t : DateInput) (e : Bool) (sf st : String),
        convertToString f = .ok sf → convertToString t = .ok st →
        sf ≠ "" → st ≠ "" → strGT sf st = true →
        temporal q f t e = .error (.valueError, q)) ∧
    (∀ (q : QState) (mn mx : Int), mn ≠ 0 → mx ≠ 0 → mn > mx →
        cloudCover q mn mx = .error (.valueError, q)) ∧
    (∀ q : QState, ∃ q', cloudCover q 5 10 = .ok (q', .builder) ∧
        lookupKey q'.params "cloud_cover" = some (.str "5,10")) := by
  refine ⟨?_, ?_, ?_⟩
  · intro q f t e sf st hf ht h1 h2 h3
    unfold temporal
    rw [hf, ht]
    simp [h1, h2, h3]
  · intro q mn mx h1 h2 h3
    simp [cloudCover, h1, h2, h3]
  · intro q
    exact ⟨{ q with params := setKey q.params "cloud_cover" (.str "5,10") },
      by rfl, lookupKey_setKey_self q.params "cloud_cover" (.str "5,10")⟩

/-- C6 witness: an inverted temporal range and the spec's own cloud-cover
examples. -/
theorem c6_range_validation_witness :
    temporal emptyQ (.str "2016-10-12T10:55:07Z") (.str "2016-10-12T09:00:00Z") false =
      .error (.valueError, emptyQ) ∧
    cloudCover emptyQ 10 5 = .error (.valueError, emptyQ) ∧
    ∃ q', cloudCover emptyQ 5 10 = .ok (q', .builder) ∧
      lookupKey q'.params "cloud_cover" = some (.str "5,10") :=
  ⟨c6_range_validation_amended.1 emptyQ _ _ false
      "2016-10-12T10:55:07Z" "2016-10-12T09:00:00Z"
      (by decide) (by decide) (by decide) (by decide) (by decide),
    c6_range_validation_amended.2.1 emptyQ 10 5 (by decide) (by decide) (by decide),
    c6_range_validation_amended.2.2 emptyQ⟩

/-- C8: a non-empty polygon fails with `ValueError` when it has fewer than 4
pairs; with ≥ 4 pairs it fails when the first pair differs from the last
pair; otherwise it stores the pairs flattened to comma-joined float
renderings. -/
theorem c8_polygon_validation (q : QState) (p : Int × Int) (rest : List (Int × Int)) :
    ((p :: rest).length < 4 → polygon q (p :: rest) = .error (.valueError, q)) ∧
    (4 ≤ (p :: rest).length → p ≠ (p :: rest).getLast! →
        polygon q (p :: rest) = .error (.valueError, q)) ∧
    (4 ≤ (p :: rest).length → p = (p :: rest).getLast! →
        ∃ q', polygon q (p :: rest) = .ok (q', .builder) ∧
          lookupKey q'.params "polygon" = some (.str (String.intercalate ","
            ((p :: rest).flatMap (fun c => [pyFloatStr c.1, pyFloatStr c.2]))))) := by
  refine ⟨?_, ?_, ?_⟩
  · intro hlen
    have hl : rest.length < 3 := by
      have := hlen
      simp only [List.length_cons] at this
      omega
    simp [polygon, hlen]
    intro hge
    exact absurd hge (by omega)
  · intro hlen hne
    have h4 : ¬ (p :: rest).length < 4 := Nat.not_lt.mpr hlen
    have hcomp : p.1 ≠ ((p :: rest).getLast!).1 ∨ p.2 ≠ ((p :: rest).getLast!).2 := by
      by_contra hcon
      push_neg at hcon
      exact hne (Prod.ext hcon.1 hcon.2)
    rcases hcomp with hx | hx <;> simp [polygon, h4, hx]
  · intro hlen heq
    have h4 : ¬ (p :: rest).length < 4 := Nat.not_lt.mpr hlen
    refine ⟨{ q with params := setKey q.params "polygon" (.str (String.intercalate ","
        ((p :: rest).flatMap (fun c => [pyFloatStr c.1, pyFloatStr c.2])))) }, ?_, ?_⟩
    · simp [polygon, h4, ← heq]
      simpa using hlen
    · exact lookupKey_setKey_self ..

/-- C8 witness: a 3-pair ring is too short, an unclosed 4-pair chain fails,
and a closed square is stored flattened. -/
theorem c8_polygon_validation_witness :
    polygon emptyQ [(0, 0), (0, 1), (0, 0)] = .error (.valueError, emptyQ) ∧
    polygon emptyQ [(0, 0), (0, 1), (1, 1), (2, 2)] = .error (.valueError, emptyQ) ∧
    ∃ q', polygon emptyQ [(0, 0), (0, 1), (1, 1), (0, 0)] = .ok (q', .builder) ∧
      lookupKey q'.params "polygon" =
        some (.str "0.0,0.0,0.0,1.0,1.0,1.0,0.0,0.0") := by
  refine ⟨(c8_polygon_validation emptyQ (0, 0) [(0, 1), (0, 0)]).1 (by decide),
    (c8_polygon_validation emptyQ (0, 0) [(0, 1), (1, 1), (2, 2)]).2.1
      (by decide) (by decide), ?_⟩
  obtain ⟨q', h1, h2⟩ := (c8_polygon_validation emptyQ (0, 0) [(0, 1), (1, 1), (0, 0)]).2.2
    (by decide) (by decide)
  refine ⟨q', h1, ?_⟩
  rw [h2]
  rfl

/-- C9: every modelled setter is atomic — whenever a call raises, the state
carried out with the exception is exactly the state the call started from
(every raise site in the source precedes every write). -/
theorem c9_setter_atomicity (q : QState) (c : SetterCall) (e : PyErr) (q' : QState)
    (h : applyCall q c = .error (e, q')) : q' = q := by
  cases c <;>
    simp only [applyCall, onlineOnly, temporal, shortName, version, point, polygon,
      boundingBox, line, downloadable, entryTitle, orbitNumber, dayNightFlag,
      cloudCover, instrument, platform, granuleUr, granulePoint] at h <;>
    (try split at h) <;>
    (try split at h) <;>
    (try split at h) <;>
    (try split at h) <;>
    simp_all

/-- C9 witness: a failing `cloud_cover(10, 5)` call leaves a fresh builder's
state untouched. -/
theorem c9_setter_atomicity_witness :
    applyCall emptyQ (.cloudCoverC 10 5) = .error (.valueError, emptyQ) ∧
    emptyQ = emptyQ :=
  ⟨by decide,
    c9_setter_atomicity emptyQ (.cloudCoverC 10 5) .valueError emptyQ (by decide)⟩

/-- C10: executing never mutates the builder: `query()` (queries.py, both
variants) hands back the state it was given — on success and on the
pre-flight failure — so re-running it yields the identical URL; granule.py's
`execute()` likewise returns the state unchanged and is idempotent on it. -/
theorem c10_execute_read_only :
    (∀ (q : QState) (u : String) (q' : QState),
        granuleQueryRun q = .ok (u, q') → q' = q ∧ granuleQueryRun q' = .ok (u, q')) ∧
    (∀ (q : QState) (e : PyErr) (q' : QState),
        granuleQueryRun q = .error (e, q') → q' = q) ∧
    (∀ (q : QState) (u : String) (q' : QState),
        collectionsQueryRun q = .ok (u, q') →
          q' = q ∧ collectionsQueryRun q' = .ok (u, q')) ∧
    (∀ q : QState, (granuleExecuteRun q).2 = q ∧
        granuleExecuteRun ((granuleExecuteRun q).2) = granuleExecuteRun q) := by
  refine ⟨?_, ?_, ?_, ?_⟩
  · intro q u q' h
    unfold granuleQueryRun queryFn at h ⊢
    split at h
    · exact absurd h (by simp)
    · next hv =>
        simp only [Except.ok.injEq, Prod.mk.injEq] at h
        obtain ⟨rfl, rfl⟩ := h
        exact ⟨rfl, by rw [if_neg hv]⟩
  · intro q e q' h
    unfold granuleQueryRun queryFn at h
    split at h <;> simp_all
  · intro q u q' h
    unfold collectionsQueryRun queryFn at h ⊢
    simp only [collectionsValidState, Bool.not_true, Bool.false_eq_true, if_false,
      Except.ok.injEq, Prod.mk.injEq] at h
    obtain ⟨rfl, rfl⟩ := h
    exact ⟨rfl, rfl⟩
  · intro q
    exact ⟨rfl, rfl⟩

/-- C10 witness: a fresh builder executes to a concrete URL with its state
returned intact, twice over. -/
theorem c10_execute_read_only_witness :
    emptyQ = emptyQ ∧
    granuleQueryRun emptyQ =
      .ok ("https://cmr.earthdata.nasa.gov/search/granules.json?&", emptyQ) :=
  ⟨(c10_execute_read_only.1 emptyQ
      "https://cmr.earthdata.nasa.gov/search/granules.json?&" emptyQ (by decide)).1,
    (c10_execute_read_only.1 emptyQ
      "https://cmr.earthdata.nasa.gov/search/granules.json?&" emptyQ (by decide)).2⟩

end PyCMR
